import Mathlib

/-
  Verification development for the work-logging dashboard repository
  (src/app.py, Streamlit version; src/memo-gradio/app.py, Gradio version).

  The Python code is shallowly embedded:
  * spreadsheet tables become lists of records of strings
    (columns 날짜/시간/메뉴/유형/내용/이미지/알림시간/완료 for notes,
    메뉴명/시트정보/트리거정보/업무설명/메일발송설정 for config);
  * external calls (sheet read/write, upload) take an `Except` argument
    standing for the outcome of the remote call; the catch-all handlers
    of the source become the `.error` branches;
  * Python string operations (`strip`, `lower`, `split`, `in`,
    `re.findall`) are re-implemented over `List Char`;
  * `datetime.strptime(s, "%Y-%m-%d %H:%M")` is re-implemented including
    CPython's lenient 1-2 digit month/day/hour/minute fields and its
    calendar validation; timestamps are counted in seconds.
-/

/-! ## Python string primitives -/

/-- Whitespace set of Python `str.strip` / regex `\s` (ASCII part). -/
def isPySpace (c : Char) : Bool :=
  c == ' ' || c == '\t' || c == '\n' || c == '\r' || c == '\x0b' || c == '\x0c'

/-- Drop leading whitespace (front half of `str.strip`). -/
def stripFront (l : List Char) : List Char := l.dropWhile isPySpace

/-- Drop trailing whitespace (back half of `str.strip`). -/
def stripBack (l : List Char) : List Char :=
  (l.reverse.dropWhile isPySpace).reverse

/-- Python `str.strip()` on a character list. -/
def stripChars (l : List Char) : List Char := stripBack (stripFront l)

/-- Python `str.strip()`. -/
def pyStrip (s : String) : String := ⟨stripChars s.data⟩

/-- Python `str.lower()` (ASCII case folding; Korean characters unaffected). -/
def pyLower (s : String) : String := ⟨s.data.map Char.toLower⟩

/-- Does `pat` occur at the start of `text`? -/
def listStartsWith : List Char → List Char → Bool
  | [], _ => true
  | _ :: _, [] => false
  | a :: ps, b :: ts => a == b && listStartsWith ps ts

/-- Python `pat in text` substring test. -/
def listContains (pat : List Char) : List Char → Bool
  | [] => pat.isEmpty
  | b :: ts => listStartsWith pat (b :: ts) || listContains pat ts

/-- Python `text.split(sep)` for a one-character separator. -/
def splitOnChar (c : Char) : List Char → List (List Char)
  | [] => [[]]
  | a :: t =>
    match splitOnChar c t with
    | [] => [[]]
    | h :: r => if a == c then [] :: h :: r else (a :: h) :: r

/-- Everything after the first `:` — Python `line.split(':', 1)[1]`. -/
def afterColon (l : List Char) : List Char :=
  (l.dropWhile (· != ':')).tail

/-- The field between the first and second `:` — Python `line.split(':')[1]`. -/
def fieldOne (l : List Char) : List Char :=
  (afterColon l).takeWhile (· != ':')

/-- Numeric value of a digit character. -/
def digitVal (c : Char) : Nat := c.toNat - '0'.toNat

/-- Value of a digit run, Python `int` on a digit string. -/
def natOfDigits (l : List Char) : Nat :=
  l.foldl (fun n c => 10 * n + digitVal c) 0

/-- First maximal digit run — `re.findall(r'\d+', s)[0]` when nonempty. -/
def firstDigitRun (l : List Char) : Option (List Char) :=
  match l.dropWhile (fun c => !c.isDigit) with
  | [] => none
  | c :: t => some (c :: t.takeWhile Char.isDigit)

/-! ## Data model: spreadsheet rows -/

/-- One row of the `notes` worksheet; columns
    날짜, 시간, 메뉴, 유형, 내용, 이미지, 알림시간, 완료 (all strings). -/
structure NoteRow where
  date : String
  time : String
  menu : String
  noteType : String
  content : String
  image : String
  alarmTime : String
  done : String
deriving DecidableEq

/-- One row of the `config` worksheet; columns
    메뉴명, 시트정보, 트리거정보, 업무설명, 메일발송설정. -/
structure ConfigRow where
  menuName : String
  sheetInfo : String
  triggerInfo : String
  taskDesc : String
  mailFlag : String
deriving DecidableEq

/-- `load_sheet` (app.py) strips every string cell:
    `df[col].astype(str).str.strip()`. -/
def stripNoteRow (r : NoteRow) : NoteRow :=
  { date := pyStrip r.date, time := pyStrip r.time, menu := pyStrip r.menu,
    noteType := pyStrip r.noteType, content := pyStrip r.content,
    image := pyStrip r.image, alarmTime := pyStrip r.alarmTime,
    done := pyStrip r.done }

/-- Cell stripping of `load_sheet` (app.py) on a config row. -/
def stripConfigRow (r : ConfigRow) : ConfigRow :=
  { menuName := pyStrip r.menuName, sheetInfo := pyStrip r.sheetInfo,
    triggerInfo := pyStrip r.triggerInfo, taskDesc := pyStrip r.taskDesc,
    mailFlag := pyStrip r.mailFlag }

/-! ## Sheet wrappers (app.py `load_sheet`, gradio `save_to_sheet` / `upload_to_drive`)

The `Except` argument is the outcome of the remote call; the `.error`
branch is the source's catch-all `except` handler.  Each wrapper returns
the emitted messages next to its value. -/

/-- Where a handler's message goes: `st.error`/`st.warning` render inline
    in the app page, while `print` writes to the server's stdout and is
    never rendered in the UI. -/
inductive MsgSink
  | ui
  | console
deriving DecidableEq

/-- One emitted message: its sink and its text. -/
structure Msg where
  sink : MsgSink
  text : String
deriving DecidableEq

/-- app.py `load_sheet("notes")`: on success the frame is `fillna`-ed,
    missing 알림시간/완료 columns are added (no-op on typed rows) and every
    cell is stripped; on failure an error message is shown and an empty
    frame with the note columns is returned. -/
def load_sheet_notes (res : Except String (List NoteRow)) :
    List String × List NoteRow :=
  match res with
  | .ok df => ([], df.map stripNoteRow)
  | .error e => (["시트 로드 실패 (notes): " ++ e], [])

/-- app.py `load_sheet("config")`, same shape as `load_sheet_notes`. -/
def load_sheet_config (res : Except String (List ConfigRow)) :
    List String × List ConfigRow :=
  match res with
  | .ok df => ([], df.map stripConfigRow)
  | .error e => (["시트 로드 실패 (config): " ++ e], [])

/-- gradio `load_sheet("notes")`: `fillna("")` plus column back-fill only —
    cells are not stripped, so on typed rows the load is the identity. -/
def gr_load_notes (stored : List NoteRow) : List NoteRow := stored

/-- gradio `save_to_sheet`: clear + update wholesale; `True` on success,
    `False` plus a console-printed message on failure. -/
def gr_save_to_sheet (res : Except String Unit) : Bool × List Msg :=
  match res with
  | .ok _ => (true, [])
  | .error e => (false, [⟨MsgSink.console, "❌ 시트 저장 실패: " ++ e⟩])

/-- gradio `upload_to_drive`: on success a public viewer URL built from the
    created file id, on failure `None` plus a console-printed message. -/
def gr_upload_to_drive (res : Except String String) :
    Option String × List Msg :=
  match res with
  | .ok fileId =>
      (some ("https://drive.google.com/uc?export=view&id=" ++ fileId), [])
  | .error e => (none, [⟨MsgSink.console, "❌ 이미지 업로드 실패: " ++ e⟩])

/-- gradio `load_sheet("notes")` including its catch-all: on success the
    identity pass of `gr_load_notes`, on failure the empty default frame
    plus a console-printed message. -/
def gr_load_sheet_notes (res : Except String (List NoteRow)) :
    List NoteRow × List Msg :=
  match res with
  | .ok df => (gr_load_notes df, [])
  | .error e => ([], [⟨MsgSink.console, "❌ 시트 로드 실패: " ++ e⟩])

/-- app.py `save_sheet`: `conn.update` plus cache clear; `True` on
    success, `False` plus an inline `st.error` message on failure. -/
def save_sheet (worksheet : String) (res : Except String Unit) :
    Bool × List Msg :=
  match res with
  | .ok _ => (true, [])
  | .error e =>
      (false, [⟨MsgSink.ui, "저장 실패 (" ++ worksheet ++ "): " ++ e⟩])

/-- app.py `upload_to_drive`: on success a public viewer URL built from
    the created file id, on failure `None` plus an inline `st.error`
    message. -/
def upload_to_drive (res : Except String String) :
    Option String × List Msg :=
  match res with
  | .ok fileId =>
      (some ("https://drive.google.com/uc?export=view&id=" ++ fileId), [])
  | .error e => (none, [⟨MsgSink.ui, "이미지 업로드 실패: " ++ e⟩])

/-! ## strptime("%Y-%m-%d %H:%M") and the calendar -/

/-- One 1-2 digit field of CPython strptime (`%m`/`%d`/`%H`/`%M`): a
    two-digit value is taken when it lies in `[lo2, hi2]`, otherwise a
    single leading digit is taken when it is at least `singleLo`. -/
def parseNum2 (lo2 hi2 singleLo : Nat) : List Char → Option (Nat × List Char)
  | [] => none
  | c1 :: rest1 =>
    if !c1.isDigit then none
    else
      match rest1 with
      | c2 :: rest2 =>
        if c2.isDigit && decide (lo2 ≤ 10 * digitVal c1 + digitVal c2)
            && decide (10 * digitVal c1 + digitVal c2 ≤ hi2) then
          some (10 * digitVal c1 + digitVal c2, rest2)
        else if decide (singleLo ≤ digitVal c1) then some (digitVal c1, rest1)
        else none
      | [] =>
        if decide (singleLo ≤ digitVal c1) then some (digitVal c1, []) else none

/-- The exactly-four-digit `%Y` field. -/
def parseYear4 : List Char → Option (Nat × List Char)
  | c1 :: c2 :: c3 :: c4 :: rest =>
    if c1.isDigit && c2.isDigit && c3.isDigit && c4.isDigit then
      some (natOfDigits [c1, c2, c3, c4], rest)
    else none
  | _ => none

/-- A literal character of the format string. -/
def expectChar (c : Char) : List Char → Option (List Char)
  | x :: r => if x == c then some r else none
  | [] => none

/-- Whitespace in the format string matches one or more whitespace
    characters. -/
def parseSpaces1 (l : List Char) : Option (List Char) :=
  match l with
  | x :: r => if isPySpace x then some (r.dropWhile isPySpace) else none
  | [] => none

/-- Gregorian leap year. -/
def isLeap (y : Nat) : Bool := y % 4 == 0 && (y % 100 != 0 || y % 400 == 0)

/-- Month lengths of year `y`. -/
def monthLengths (y : Nat) : List Nat :=
  [31, if isLeap y then 29 else 28, 31, 30, 31, 30, 31, 31, 30, 31, 30, 31]

/-- Number of days in month `m` of year `y` (months are 1-based). -/
def daysInMonth (y m : Nat) : Nat := ((monthLengths y).get? (m - 1)).getD 31

/-- Days of year `y` before month `m`. -/
def daysBeforeMonth (y m : Nat) : Nat := ((monthLengths y).take (m - 1)).sum

/-- Days between 0001-01-01 and the given date (proleptic Gregorian). -/
def daysFromCivil (y m d : Nat) : Nat :=
  (y - 1) * 365 + (y - 1) / 4 - (y - 1) / 100 + (y - 1) / 400
    + daysBeforeMonth y m + (d - 1)

/-- `datetime.strptime(s, "%Y-%m-%d %H:%M")` followed by the `datetime`
    constructor's range validation, mapped to seconds since 0001-01-01
    00:00; `none` models the ValueError path (which every caller catches). -/
def parseDateTimeSec (l : List Char) : Option Nat := do
  let (y, r1) ← parseYear4 l
  let r2 ← expectChar '-' r1
  let (m, r3) ← parseNum2 1 12 1 r2
  let r4 ← expectChar '-' r3
  let (d, r5) ← parseNum2 1 31 1 r4
  let r6 ← parseSpaces1 r5
  let (h, r7) ← parseNum2 0 23 0 r6
  let r8 ← expectChar ':' r7
  let (mi, r9) ← parseNum2 0 59 0 r8
  if r9.isEmpty && decide (1 ≤ y) && decide (d ≤ daysInMonth y m) then
    some ((((daysFromCivil y m d) * 24 + h) * 60 + mi) * 60)
  else none

/-! ## Completion flag and pending-alert check -/

/-- `str(row.get("완료", "")).strip().lower() in ["o", "완료", "done", "x"]`:
    the completion test shared by `check_pending_tasks`, the history view
    and the gradio recent-notes view. -/
def isDoneStr (s : String) : Bool :=
  let d := pyLower (pyStrip s)
  d == "o" || d == "완료" || d == "done" || d == "x"

/-- app.py `check_pending_tasks`: load the notes sheet, restrict to
    유형 == "할일", keep the rows that are not completed, whose stripped
    알림시간 is nonempty, not "nan" and parses with `strptime`, and whose
    alarm satisfies `alarm - 30min <= now <= alarm + 2h`.  `nowSec` is
    `now_kst()` in seconds; the result lists the pending rows in order. -/
def check_pending_tasks (nowSec : Int) (stored : List NoteRow) : List NoteRow :=
  let notes := (load_sheet_notes (.ok stored)).2
  let todos := notes.filter (fun r => r.noteType == "할일")
  todos.filter (fun r =>
    !isDoneStr r.done &&
    (let alarm := pyStrip r.alarmTime
     alarm != "" && alarm != "nan" &&
     (match parseDateTimeSec alarm.data with
      | some t => decide ((t : Int) - 1800 ≤ nowSec) && decide (nowSec ≤ (t : Int) + 7200)
      | none => false)))

/-- app.py history view: `done_mark = "✅" if is_done else ""`. -/
def history_done_mark (r : NoteRow) : String :=
  if isDoneStr r.done then "✅" else ""

/-- gradio `get_recent_notes`: `done_mark = " ✅"` when completed. -/
def gr_recent_done_mark (r : NoteRow) : String :=
  if isDoneStr r.done then " ✅" else ""

/-! ## The response-parsing loop of ai_classify_note -/

/-- The 업무번호 parse of one (already stripped) line that reached the 업무
    branch: first digit run of `line.split(':')[1].strip()`, then the
    `1 <= n <= len(menu_list)` index check. -/
def menuOfLine (ml : List String) (line : List Char) : Option String :=
  match firstDigitRun (stripChars (fieldOne line)) with
  | none => none
  | some ds =>
    let n := natOfDigits ds
    if 1 ≤ n then ml.get? (n - 1) else none

/-- A match of `\d{4}-\d{2}-\d{2}\s+\d{2}:\d{2}` anchored at the start of
    the list; the matched text is returned. -/
def matchTimeAt : List Char → Option (List Char)
  | y1 :: y2 :: y3 :: y4 :: '-' :: m1 :: m2 :: '-' :: d1 :: d2 :: rest =>
    if [y1, y2, y3, y4, m1, m2, d1, d2].all Char.isDigit then
      match rest.takeWhile isPySpace, rest.dropWhile isPySpace with
      | w :: ws, h1 :: h2 :: ':' :: n1 :: n2 :: _ =>
        if [h1, h2, n1, n2].all Char.isDigit then
          some ([y1, y2, y3, y4, '-', m1, m2, '-', d1, d2]
                 ++ (w :: ws) ++ [h1, h2, ':', n1, n2])
        else none
      | _, _ => none
    else none
  | _ => none

/-- Leftmost match of the timestamp regex — `re.findall(pattern, s)[0]`. -/
def findTimeMatch : List Char → Option String
  | [] => none
  | a :: t =>
    match matchTimeAt (a :: t) with
    | some m => some ⟨m⟩
    | none => findTimeMatch t

/-- The 시간 parse of one (already stripped) line that reached the 시간
    branch: text after the first colon, stripped; skipped when it contains
    없음 or is at most five characters long; otherwise the first regex
    match, if any. -/
def timeOfLine (line : List Char) : Option String :=
  let ts := stripChars (afterColon line)
  if listContains "없음".data ts || decide (ts.length ≤ 5) then none
  else findTimeMatch ts

/-- app.py 유형 mapping on the lower-cased stripped field. -/
def typeOfApp (t : List Char) : Option String :=
  if listContains "아이디어".data t || listContains "idea".data t then
    some "아이디어"
  else if (listContains "할".data t && listContains "일".data t)
      || listContains "todo".data t then
    some "할일"
  else if listContains "업데이트".data t || listContains "update".data t then
    some "업데이트"
  else if listContains "문제".data t || listContains "issue".data t then
    some "문제점"
  else none

/-- gradio 유형 mapping (emoji labels, Korean keywords only). -/
def typeOfGr (t : List Char) : Option String :=
  if listContains "아이디어".data t then some "💡 아이디어"
  else if listContains "할".data t && listContains "일".data t then
    some "✅ 할 일"
  else if listContains "업데이트".data t then some "📝 업데이트"
  else if listContains "문제".data t then some "🔥 문제점"
  else none

/-- One iteration of `for line in lines` of ai_classify_note, shared by
    both versions; `tyOf` is the version's 유형 mapping and the state is
    (menu, note_type, alarm_time). -/
def classifyStep (tyOf : List Char → Option String) (ml : List String)
    (st : Option String × Option String × Option String) (raw : List Char) :
    Option String × Option String × Option String :=
  let line := stripChars raw
  if listContains "업무".data line && listContains ":".data line then
    match menuOfLine ml line with
    | some m => (some m, st.2.1, st.2.2)
    | none => st
  else if listContains "유형".data line && listContains ":".data line then
    match tyOf ((stripChars (fieldOne line)).map Char.toLower) with
    | some t => (st.1, some t, st.2.2)
    | none => st
  else if listContains "시간".data line && listContains ":".data line then
    match timeOfLine line with
    | some a => (st.1, st.2.1, some a)
    | none => st
  else st

/-- The menu assignment a single raw line contributes (branch guards
    included): `some m` exactly when the loop would execute `menu = m` on
    this line. -/
def lineMenuResult (ml : List String) (raw : List Char) : Option String :=
  let line := stripChars raw
  if listContains "업무".data line && listContains ":".data line then
    menuOfLine ml line
  else none

/-- The note_type assignment a single raw line contributes. -/
def lineTypeResult (tyOf : List Char → Option String) (raw : List Char) :
    Option String :=
  let line := stripChars raw
  if listContains "업무".data line && listContains ":".data line then none
  else if listContains "유형".data line && listContains ":".data line then
    tyOf ((stripChars (fieldOne line)).map Char.toLower)
  else none

/-- The alarm_time assignment a single raw line contributes. -/
def lineTimeResult (raw : List Char) : Option String :=
  let line := stripChars raw
  if listContains "업무".data line && listContains ":".data line then none
  else if listContains "유형".data line && listContains ":".data line then none
  else if listContains "시간".data line && listContains ":".data line then
    timeOfLine line
  else none

/-- app.py `ai_classify_note`: the `Except` argument is the outcome of the
    Gemini call (`response.text`), the `.error` branch is the catch-all
    handler; prompt construction is I/O and does not influence the parse.
    Returns (menu, note_type, alarm_time). -/
def ai_classify_note (res : Except String String) (ml : List String) :
    Option String × Option String × Option String :=
  match res with
  | .error _ =>
    if ml.isEmpty then (none, none, none) else (ml.head?, some "업데이트", none)
  | .ok txt =>
    let lines := splitOnChar '\n' (stripChars txt.data)
    let st := lines.foldl (classifyStep typeOfApp ml) (none, none, none)
    let menu :=
      match st.1 with
      | some s => if s == "" && !ml.isEmpty then ml.head? else some s
      | none => if !ml.isEmpty then ml.head? else none
    let ty := match st.2.1 with | some t => t | none => "업데이트"
    (menu, some ty, st.2.2)

/-- gradio `ai_classify_note`: returns (menu, note_type, alarm_time,
    result) where `result` is the stripped raw response text; with an
    empty menu list the fallback `menu_list[0]` raises IndexError, which
    the catch-all turns into the error tuple. -/
def gr_ai_classify_note (res : Except String String) (ml : List String) :
    Option String × String × Option String × String :=
  match res with
  | .error e => (ml.head?, "📝 업데이트", none, e)
  | .ok txt =>
    if ml.isEmpty then (none, "📝 업데이트", none, "list index out of range")
    else
      let result := pyStrip txt
      let lines := splitOnChar '\n' result.data
      let st := lines.foldl (classifyStep typeOfGr ml) (none, none, none)
      let menu :=
        match st.1 with
        | some s => if s == "" then ml.head? else some s
        | none => ml.head?
      let ty := match st.2.1 with | some t => t | none => "📝 업데이트"
      (menu, ty, st.2.2, result)

/-! ## Calendar events -/

/-- A calendar event body as built by app.py `create_calendar_event`,
    together with the fixed destination calendar id of the insert call. -/
structure CalEvent where
  summary : String
  description : String
  startSec : Nat
  endSec : Nat
  reminders : List (String × Nat)
  calendarId : String
deriving DecidableEq

/-- app.py `create_calendar_event`: parse the start string with
    `strptime("%Y-%m-%d %H:%M")`, end time one hour later, two fixed popup
    reminder overrides (30 and 10 minutes), fixed calendar id; a parse
    failure hits the catch-all and yields `None`. -/
def create_calendar_event (title description start_datetime_str menu : String) :
    Option CalEvent :=
  (parseDateTimeSec start_datetime_str.data).map (fun s =>
    { summary := "[" ++ menu ++ "] " ++ (⟨title.data.take 50⟩ : String) ++ "...",
      description := description,
      startSec := s,
      endSec := s + 3600,
      reminders := [("popup", 30), ("popup", 10)],
      calendarId := "wldydxo09@gmail.com" })

/-! ## Saving notes, adding tasks, deleting rows -/

/-- app.py note_form submit handler after classification and upload: blank
    content yields only a warning; otherwise the new row is appended to
    the freshly loaded notes table and saved.  Returns the stored table
    and the message shown. -/
def note_form_submit (stored : List NoteRow) (today nowTime : String)
    (selected_menu note_type content : String)
    (image_url alarm_time : Option String) : List NoteRow × String :=
  if pyStrip content == "" then (stored, "⚠️ 내용 입력 필요")
  else
    let notes := (load_sheet_notes (.ok stored)).2
    let row : NoteRow :=
      { date := today, time := nowTime, menu := selected_menu,
        noteType := note_type, content := content,
        image := image_url.getD "", alarmTime := alarm_time.getD "",
        done := "" }
    (notes ++ [row], "✅ 저장 완료!")

/-- gradio `save_note` data path (classification and upload already done):
    blank or whitespace-only content returns only the warning; otherwise
    the row is appended and saved.  The success message of the source is a
    long composite; only the guard's warning text is modelled verbatim. -/
def gr_save_note (stored : List NoteRow) (content menu note_type : String)
    (today nowTime : String) (image_url : String)
    (alarm_time : Option String) : List NoteRow × String :=
  if pyStrip content == "" then (stored, "⚠️ 내용을 입력하세요")
  else
    let notes := gr_load_notes stored
    let row : NoteRow :=
      { date := today, time := nowTime, menu := menu, noteType := note_type,
        content := content, image := image_url,
        alarmTime := alarm_time.getD "", done := "" }
    (notes ++ [row], "✅ 저장 완료!")

/-- app.py add_menu_form submit: a blank task name only warns; otherwise a
    config row carrying the (unstripped) name is appended to the loaded
    config table and the result saved. -/
def add_menu_submit (stored : List ConfigRow) (new_menu new_desc : String) :
    List ConfigRow :=
  if pyStrip new_menu == "" then stored
  else
    (load_sheet_config (.ok stored)).2 ++
      [{ menuName := new_menu, sheetInfo := "", triggerInfo := "",
         taskDesc := new_desc, mailFlag := "" }]

/-- `config_df["메뉴명"].tolist()` on a loaded config table. -/
def menu_list_of (config : List ConfigRow) : List String :=
  config.map (·.menuName)

/-- The task-name listing as the UI computes it from the stored sheet:
    load, then take the 메뉴명 column. -/
def stored_menu_list (stored : List ConfigRow) : List String :=
  menu_list_of (load_sheet_config (.ok stored)).2

/-- `notes_df.drop(idx)` / `chats_df.drop(idx)` on a freshly loaded table:
    the pandas row labels of a loaded table are the positions 0..n-1, so
    the drop removes the row at position `idx`. -/
def delete_row {α : Type} (df : List α) (idx : Nat) : List α :=
  df.eraseIdx idx

/-! ## The remaining catch-all wrappers (messages next to values) -/

/-- app.py `ai_classify_note` with its emitted message: the catch-all
    shows an inline `st.error` and returns the fallback tuple of
    `ai_classify_note`.  (The `st.info` debug line of the success path is
    not an error message and is not modelled.) -/
def ai_classify_note_call (res : Except String String) (ml : List String) :
    List Msg × (Option String × Option String × Option String) :=
  match res with
  | .error e => ([⟨MsgSink.ui, "AI 분류 오류: " ++ e⟩], ai_classify_note (.error e) ml)
  | .ok txt => ([], ai_classify_note (.ok txt) ml)

/-- gradio `ai_classify_note` with its emitted message: the catch-all
    prints to the console and returns the fallback tuple of
    `gr_ai_classify_note`. -/
def gr_ai_classify_note_call (res : Except String String) (ml : List String) :
    List Msg × (Option String × String × Option String × String) :=
  match res with
  | .error e =>
      ([⟨MsgSink.console, "❌ AI 분류 실패: " ++ e⟩], gr_ai_classify_note (.error e) ml)
  | .ok txt => ([], gr_ai_classify_note (.ok txt) ml)

/-- app.py `create_calendar_event` including the `events().insert` call:
    the single catch-all covers both the strptime ValueError (whose
    exception text is abbreviated here) and an API failure; either way it
    shows an inline `st.error` and returns `None`, otherwise the event's
    htmlLink. -/
def create_calendar_event_call (title description start_datetime_str menu : String)
    (insertRes : Except String String) : Option String × List Msg :=
  match create_calendar_event title description start_datetime_str menu with
  | none => (none, [⟨MsgSink.ui, "캘린더 등록 실패: ValueError"⟩])
  | some _ =>
    match insertRes with
    | .ok link => (some link, [])
    | .error e => (none, [⟨MsgSink.ui, "캘린더 등록 실패: " ++ e⟩])

/-! ## Helper lemmas on stripping -/

lemma stripFront_stripFront (l : List Char) :
    stripFront (stripFront l) = stripFront l :=
  List.dropWhile_idempotent isPySpace l

lemma stripBack_stripBack (l : List Char) :
    stripBack (stripBack l) = stripBack l := by
  unfold stripBack
  rw [List.reverse_reverse, List.dropWhile_idempotent]

lemma head_not_space_of_stripFront_fixed {a : Char} {t : List Char}
    (h : stripFront (a :: t) = a :: t) : isPySpace a = false := by
  by_contra hp
  have hpa : isPySpace a = true := by
    cases hx : isPySpace a with
    | false => exact absurd hx hp
    | true => rfl
  unfold stripFront at h
  rw [List.dropWhile_cons, hpa] at h
  simp only [if_true] at h
  have hle : (t.dropWhile isPySpace).length ≤ t.length :=
    (List.dropWhile_suffix isPySpace).length_le
  rw [h] at hle
  simp at hle

lemma stripFront_stripBack_of_fixed {m : List Char}
    (h : stripFront m = m) : stripFront (stripBack m) = stripBack m := by
  cases m with
  | nil => rfl
  | cons a t =>
    have hpa : isPySpace a = false := head_not_space_of_stripFront_fixed h
    unfold stripBack
    set z := (a :: t).reverse.dropWhile isPySpace with hz
    have hzne : z ≠ [] := by
      intro hnil
      have hall := List.dropWhile_eq_nil_iff.mp hnil
      have : isPySpace a = true := hall a (by simp)
      rw [hpa] at this
      exact Bool.false_ne_true this
    have hsuf : z <:+ (a :: t).reverse := List.dropWhile_suffix isPySpace
    obtain ⟨u, hu⟩ := hsuf
    have hlast : z.getLast? = some a := by
      have h1 : (u ++ z).getLast? = z.getLast? :=
        List.getLast?_append_of_ne_nil u hzne
      have h2 : (a :: t).reverse = t.reverse ++ [a] := by simp
      rw [hu, h2] at h1
      rw [← h1, List.getLast?_concat]
    have hhead : z.reverse.head? = some a := by
      rw [List.head?_reverse, hlast]
    cases hzr : z.reverse with
    | nil => rw [hzr] at hhead; simp at hhead
    | cons b rest =>
      rw [hzr] at hhead
      simp only [List.head?_cons, Option.some.injEq] at hhead
      unfold stripFront
      rw [List.dropWhile_cons, hhead, hpa]
      simp

lemma stripChars_stripChars (l : List Char) :
    stripChars (stripChars l) = stripChars l := by
  unfold stripChars
  have hm : stripFront (stripFront l) = stripFront l := stripFront_stripFront l
  rw [stripFront_stripBack_of_fixed hm, stripBack_stripBack]

lemma pyStrip_pyStrip (s : String) : pyStrip (pyStrip s) = pyStrip s := by
  unfold pyStrip
  exact congrArg String.mk (stripChars_stripChars s.data)

/-! ## Helper lemmas on the classifier loop -/

lemma classifyStep_eq (tyOf : List Char → Option String) (ml : List String)
    (st : Option String × Option String × Option String) (raw : List Char) :
    classifyStep tyOf ml st raw =
      ((lineMenuResult ml raw).or st.1,
       (lineTypeResult tyOf raw).or st.2.1,
       (lineTimeResult raw).or st.2.2) := by
  unfold classifyStep lineMenuResult lineTypeResult lineTimeResult
  by_cases h1 : (listContains "업무".data (stripChars raw)
      && listContains ":".data (stripChars raw)) = true
  · simp only [h1, if_true]
    cases hm : menuOfLine ml (stripChars raw) <;> simp [Option.or]
  · simp only [Bool.not_eq_true] at h1
    simp only [h1, Bool.false_eq_true, if_false]
    by_cases h2 : (listContains "유형".data (stripChars raw)
        && listContains ":".data (stripChars raw)) = true
    · simp only [h2, if_true]
      cases ht : tyOf ((stripChars (fieldOne (stripChars raw))).map Char.toLower) <;>
        simp [Option.or]
    · simp only [Bool.not_eq_true] at h2
      simp only [h2, Bool.false_eq_true, if_false]
      by_cases h3 : (listContains "시간".data (stripChars raw)
          && listContains ":".data (stripChars raw)) = true
      · simp only [h3, if_true]
        cases ha : timeOfLine (stripChars raw) <;> simp [Option.or]
      · simp only [Bool.not_eq_true] at h3
        simp only [h3, Bool.false_eq_true, if_false, Option.or]

lemma foldl_classifyStep_menu (tyOf : List Char → Option String)
    (ml : List String) (ls : List (List Char))
    (st : Option String × Option String × Option String)
    (h : ∀ raw ∈ ls, lineMenuResult ml raw = none) :
    (ls.foldl (classifyStep tyOf ml) st).1 = st.1 := by
  induction ls generalizing st with
  | nil => rfl
  | cons raw rest ih =>
    simp only [List.foldl_cons]
    rw [ih _ (fun r hr => h r (List.mem_cons_of_mem _ hr))]
    rw [classifyStep_eq, h raw (List.mem_cons_self _ _)]
    rfl

lemma foldl_classifyStep_type (tyOf : List Char → Option String)
    (ml : List String) (ls : List (List Char))
    (st : Option String × Option String × Option String)
    (h : ∀ raw ∈ ls, lineTypeResult tyOf raw = none) :
    (ls.foldl (classifyStep tyOf ml) st).2.1 = st.2.1 := by
  induction ls generalizing st with
  | nil => rfl
  | cons raw rest ih =>
    simp only [List.foldl_cons]
    rw [ih _ (fun r hr => h r (List.mem_cons_of_mem _ hr))]
    rw [classifyStep_eq, h raw (List.mem_cons_self _ _)]
    rfl

/-! ## Claim theorems -/

/-- C5: deleting the row at a valid index removes exactly that row — the
    row count drops by one, every row before the index is unchanged, and
    every row from the index on is the original next row (unchanged,
    shifted down by one). -/
theorem delete_row_removes_exactly {α : Type} (df : List α) (idx : Nat)
    (h : idx < df.length) :
    (delete_row df idx).length = df.length - 1 ∧
    (∀ j, j < idx → (delete_row df idx)[j]? = df[j]?) ∧
    (∀ j, idx ≤ j → (delete_row df idx)[j]? = df[j + 1]?) := by
  refine ⟨List.length_eraseIdx_of_lt h, ?_, ?_⟩
  · intro j hj
    unfold delete_row
    have hlen : (df.take idx).length = idx := by
      rw [List.length_take]; omega
    rw [List.eraseIdx_eq_take_drop_succ, List.getElem?_append, hlen,
      List.getElem?_take]
    simp [hj]
  · intro j hj
    unfold delete_row
    have hlen : (df.take idx).length = idx := by
      rw [List.length_take]; omega
    rw [List.eraseIdx_eq_take_drop_succ, List.getElem?_append, hlen,
      List.getElem?_drop]
    have hnot : ¬ j < idx := by omega
    simp only [hnot, if_false]
    congr 1
    omega

/-- C5 witness: deleting index 1 of a three-row table. -/
theorem delete_row_removes_exactly_witness :
    (delete_row ([10, 20, 30] : List Nat) 1).length = [10, 20, 30].length - 1 ∧
    (delete_row ([10, 20, 30] : List Nat) 1)[0]? = ([10, 20, 30] : List Nat)[0]? ∧
    (delete_row ([10, 20, 30] : List Nat) 1)[1]? = ([10, 20, 30] : List Nat)[2]? :=
  ⟨(delete_row_removes_exactly [10, 20, 30] 1 (by decide)).1,
   (delete_row_removes_exactly [10, 20, 30] 1 (by decide)).2.1 0 (by decide),
   (delete_row_removes_exactly [10, 20, 30] 1 (by decide)).2.2 1 (by decide)⟩

/-- C7 counterexample: on a concrete exception the gradio sheet-write
    catch-all emits its message on the console sink (`print`), not the ui
    sink (`st.error`-style inline rendering) — so not every exception
    yields a user-visible inline message in both versions. -/
theorem external_call_inline_message_counterexample :
    gr_save_to_sheet (.error "boom")
      = (false, [⟨MsgSink.console, "❌ 시트 저장 실패: boom"⟩]) ∧
    (gr_save_to_sheet (.error "boom")).2.map (·.sink) = [MsgSink.console] ∧
    MsgSink.console ≠ MsgSink.ui :=
  ⟨rfl, rfl, by decide⟩

/-- C7 amended: every external-call wrapper of both versions (sheet read,
    sheet write, image upload, LLM call, calendar insert) catches any
    exception, emits exactly one error message and returns its
    empty/default value; the app.py messages go to the inline ui sink
    (`st.error`), while the gradio load/save/upload/classifier messages go
    to the server console (`print`), which is not user-visible inline. -/
theorem external_call_error_handling
    (e worksheet title description start menu : String) (ml : List String) :
    load_sheet_notes (.error e) = (["시트 로드 실패 (notes): " ++ e], []) ∧
    load_sheet_config (.error e) = (["시트 로드 실패 (config): " ++ e], []) ∧
    save_sheet worksheet (.error e)
      = (false, [⟨MsgSink.ui, "저장 실패 (" ++ worksheet ++ "): " ++ e⟩]) ∧
    upload_to_drive (.error e)
      = (none, [⟨MsgSink.ui, "이미지 업로드 실패: " ++ e⟩]) ∧
    ai_classify_note_call (.error e) ml
      = ([⟨MsgSink.ui, "AI 분류 오류: " ++ e⟩],
         if ml.isEmpty then (none, none, none)
         else (ml.head?, some "업데이트", none)) ∧
    create_calendar_event_call title description start menu (.error e)
      = (none,
         [⟨MsgSink.ui,
           if (create_calendar_event title description start menu).isSome
           then "캘린더 등록 실패: " ++ e
           else "캘린더 등록 실패: ValueError"⟩]) ∧
    gr_load_sheet_notes (.error e)
      = ([], [⟨MsgSink.console, "❌ 시트 로드 실패: " ++ e⟩]) ∧
    gr_save_to_sheet (.error e)
      = (false, [⟨MsgSink.console, "❌ 시트 저장 실패: " ++ e⟩]) ∧
    gr_upload_to_drive (.error e)
      = (none, [⟨MsgSink.console, "❌ 이미지 업로드 실패: " ++ e⟩]) ∧
    gr_ai_classify_note_call (.error e) ml
      = ([⟨MsgSink.console, "❌ AI 분류 실패: " ++ e⟩],
         ml.head?, "📝 업데이트", none, e) := by
  refine ⟨rfl, rfl, rfl, rfl, rfl, ?_, rfl, rfl, rfl, rfl⟩
  unfold create_calendar_event_call
  cases h : create_calendar_event title description start menu <;> simp [h]

/-- C8: every event built by create_calendar_event ends exactly one hour
    (3600 s) after it starts, carries the fixed popup reminder offsets of
    30 and 10 minutes, and goes to the single fixed calendar id. -/
theorem create_calendar_event_fixed_shape
    (title description start_str menu : String) (ev : CalEvent)
    (h : create_calendar_event title description start_str menu = some ev) :
    ev.endSec = ev.startSec + 3600 ∧
    ev.reminders = [("popup", 30), ("popup", 10)] ∧
    ev.calendarId = "wldydxo09@gmail.com" := by
  unfold create_calendar_event at h
  cases hp : parseDateTimeSec start_str.data with
  | none => rw [hp] at h; simp at h
  | some s =>
    rw [hp] at h
    simp only [Option.map_some', Option.some.injEq] at h
    subst h
    exact ⟨rfl, rfl, rfl⟩

/-- C8 witness: a concrete event on 2026-01-05 14:00. -/
theorem create_calendar_event_fixed_shape_witness :
    ∃ ev, create_calendar_event "회의" "설명" "2026-01-05 14:00" "업무A" = some ev ∧
      ev.endSec = ev.startSec + 3600 ∧
      ev.reminders = [("popup", 30), ("popup", 10)] ∧
      ev.calendarId = "wldydxo09@gmail.com" := by
  obtain ⟨ev, hev⟩ := Option.isSome_iff_exists.mp
    (by decide :
      (create_calendar_event "회의" "설명" "2026-01-05 14:00" "업무A").isSome)
  exact ⟨ev, hev, create_calendar_event_fixed_shape _ _ _ _ ev hev⟩

/-- C9: a submission whose content strips to the empty string performs no
    sheet write in either version — the stored notes table is unchanged
    and only the warning message is produced. -/
theorem blank_content_no_write (stored : List NoteRow)
    (today nowTime menu ty content : String) (img alm : Option String)
    (imgStr : String) (h : pyStrip content = "") :
    note_form_submit stored today nowTime menu ty content img alm
      = (stored, "⚠️ 내용 입력 필요") ∧
    gr_save_note stored content menu ty today nowTime imgStr alm
      = (stored, "⚠️ 내용을 입력하세요") := by
  unfold note_form_submit gr_save_note
  rw [h]
  simp

/-- C9 witness: a whitespace-only submission. -/
theorem blank_content_no_write_witness :
    pyStrip " \n " = "" ∧
    note_form_submit [] "d" "t" "m" "u" " \n " none none
      = ([], "⚠️ 내용 입력 필요") :=
  ⟨by decide,
   (blank_content_no_write [] "d" "t" "m" "u" " \n " none none "" (by decide)).1⟩

/-- C4 counterexample: on a response carrying the token RRULE:FREQ=DAILY
    the app.py classifier returns a 3-tuple with no recurrence-rule
    component at all, and the gradio classifier's fourth component is the
    whole raw response, not the RRULE token — nothing extracts it. -/
theorem classifier_no_rrule_counterexample :
    listContains "RRULE:".data
        "업무번호: 1\n유형: 할일\n시간: 없음\nRRULE:FREQ=DAILY".data = true ∧
    ai_classify_note
        (.ok "업무번호: 1\n유형: 할일\n시간: 없음\nRRULE:FREQ=DAILY") ["업무A"]
      = (some "업무A", some "할일", none) ∧
    gr_ai_classify_note
        (.ok "업무번호: 1\n유형: 할일\n시간: 없음\nRRULE:FREQ=DAILY") ["업무A"]
      = (some "업무A", "✅ 할 일", none,
         "업무번호: 1\n유형: 할일\n시간: 없음\nRRULE:FREQ=DAILY") ∧
    ("업무번호: 1\n유형: 할일\n시간: 없음\nRRULE:FREQ=DAILY" : String)
      ≠ "RRULE:FREQ=DAILY" :=
  ⟨by decide, by decide, by decide, by decide⟩

/-- C4 amended: the classifiers return (task, category, optional reminder)
    with, in the gradio version only, a fourth component that is the raw
    stripped response text (or the IndexError text when no tasks are
    configured); no RRULE token extraction exists. -/
theorem gr_classifier_fourth_is_raw_text (res : String) (ml : List String) :
    (gr_ai_classify_note (.ok res) ml).2.2.2 =
      (if ml.isEmpty then "list index out of range" else pyStrip res) := by
  unfold gr_ai_classify_note
  by_cases h : ml.isEmpty <;> simp [h]

/-- C2 counterexample: a note whose content carries a trailing space is
    saved verbatim, but the app.py reload strips it — the reloaded
    content is not byte-identical to what was saved. -/
theorem saved_content_roundtrip_counterexample :
    (((load_sheet_notes (.ok (note_form_submit [] "2026-10-12" "09:30:00"
          "업무A" "할일" "메모 내용 " (some "http://img")
          (some "2026-10-13 09:00")).1)).2.map (·.content)).getLast?
      = some "메모 내용") ∧
    ("메모 내용" : String) ≠ "메모 내용 " :=
  ⟨by decide, by decide⟩

/-- C2 amended: reloading after a save returns the saved row with its
    content stripped of surrounding whitespace in app.py (byte-identical
    exactly when the content carries none), and byte-identical in the
    gradio version, whose load does not strip cells. -/
theorem saved_content_roundtrip (stored : List NoteRow)
    (today nowTime menu ty content : String) (img alm : Option String)
    (imgStr : String) (h : pyStrip content ≠ "") :
    (((load_sheet_notes
          (.ok (note_form_submit stored today nowTime menu ty content
            img alm).1)).2.map (·.content)).getLast?
        = some (pyStrip content)) ∧
    (((gr_load_notes
          (gr_save_note stored content menu ty today nowTime imgStr
            alm).1).map (·.content)).getLast? = some content) := by
  constructor
  · simp only [note_form_submit, beq_iff_eq, h, if_false, load_sheet_notes,
      List.map_append, List.map_cons, List.map_nil]
    rw [List.getLast?_concat]
    rfl
  · simp only [gr_save_note, beq_iff_eq, h, if_false, gr_load_notes,
      List.map_append, List.map_cons, List.map_nil]
    rw [List.getLast?_concat]

/-- C2 witness: a whitespace-free content round-trips byte-identically. -/
theorem saved_content_roundtrip_witness :
    pyStrip "메모" ≠ "" ∧
    (((load_sheet_notes (.ok (note_form_submit [] "2026-10-12" "09:30:00"
          "업무A" "할일" "메모" (some "u") (some "2026-10-13 09:00")).1)).2.map
        (·.content)).getLast? = some (pyStrip "메모")) :=
  ⟨by decide,
   (saved_content_roundtrip [] "2026-10-12" "09:30:00" "업무A" "할일" "메모"
     (some "u") (some "2026-10-13 09:00") "" (by decide)).1⟩

/-- C10: a note counts as completed exactly when its 완료 field, stripped
    and lower-cased, is one of o / 완료 / done / x; every completed note
    is excluded from the pending-alerts list and rendered with the done
    mark in the history and recent-notes views. -/
theorem completed_notes_excluded_and_marked (nowSec : Int)
    (stored : List NoteRow) (r : NoteRow) (h : isDoneStr r.done = true) :
    (∀ s : String, isDoneStr s = true ↔
      (pyLower (pyStrip s) = "o" ∨ pyLower (pyStrip s) = "완료" ∨
       pyLower (pyStrip s) = "done" ∨ pyLower (pyStrip s) = "x")) ∧
    r ∉ check_pending_tasks nowSec stored ∧
    history_done_mark r = "✅" ∧
    gr_recent_done_mark r = " ✅" := by
  refine ⟨?_, ?_, ?_, ?_⟩
  · intro s
    unfold isDoneStr
    simp only [Bool.or_eq_true, beq_iff_eq]
    tauto
  · intro hmem
    unfold check_pending_tasks at hmem
    have hpred := (List.mem_filter.mp hmem).2
    simp only [Bool.and_eq_true, Bool.not_eq_true'] at hpred
    rw [h] at hpred
    simp at hpred
  · unfold history_done_mark
    rw [h]
    rfl
  · unfold gr_recent_done_mark
    rw [h]
    rfl

/-- C10 witness: a completed 할일 note right at its alarm time stays out
    of the pending list and carries the done marks. -/
theorem completed_notes_excluded_and_marked_witness :
    isDoneStr " O " = true ∧
    ({ date := "2026-01-05", time := "09:00:00", menu := "업무A",
       noteType := "할일", content := "c", image := "",
       alarmTime := "2026-01-05 14:00", done := " O " } : NoteRow)
      ∉ check_pending_tasks 63903218400
        [{ date := "2026-01-05", time := "09:00:00", menu := "업무A",
           noteType := "할일", content := "c", image := "",
           alarmTime := "2026-01-05 14:00", done := " O " }] ∧
    history_done_mark
      { date := "2026-01-05", time := "09:00:00", menu := "업무A",
        noteType := "할일", content := "c", image := "",
        alarmTime := "2026-01-05 14:00", done := " O " } = "✅" ∧
    gr_recent_done_mark
      { date := "2026-01-05", time := "09:00:00", menu := "업무A",
        noteType := "할일", content := "c", image := "",
        alarmTime := "2026-01-05 14:00", done := " O " } = " ✅" := by
  have h := completed_notes_excluded_and_marked 63903218400
    [{ date := "2026-01-05", time := "09:00:00", menu := "업무A",
       noteType := "할일", content := "c", image := "",
       alarmTime := "2026-01-05 14:00", done := " O " }]
    { date := "2026-01-05", time := "09:00:00", menu := "업무A",
      noteType := "할일", content := "c", image := "",
      alarmTime := "2026-01-05 14:00", done := " O " } (by decide)
  exact ⟨by decide, h.2.1, h.2.2.1, h.2.2.2⟩

lemma stored_menu_list_eq (stored : List ConfigRow) :
    stored_menu_list stored = stored.map (fun r => pyStrip r.menuName) := by
  simp [stored_menu_list, menu_list_of, load_sheet_config, stripConfigRow]

/-- C6 counterexample: adding a task name that is already configured
    yields a listing that includes the name twice, not exactly once. -/
theorem add_task_then_list_once_counterexample :
    (stored_menu_list (add_menu_submit
        [{ menuName := "업무A", sheetInfo := "", triggerInfo := "",
           taskDesc := "", mailFlag := "" }] "업무A" "")).count "업무A" = 2 := by
  decide

/-- C6 amended: adding a task whose name is nonempty, free of surrounding
    whitespace and not already listed, then immediately listing the task
    names, includes the new name exactly once.  (Without these provisos
    the claim fails: the form performs no duplicate check.) -/
theorem add_task_then_list_once (stored : List ConfigRow) (name desc : String)
    (h1 : pyStrip name = name) (h2 : name ≠ "")
    (h3 : name ∉ stored_menu_list stored) :
    (stored_menu_list (add_menu_submit stored name desc)).count name = 1 := by
  have hcond : ¬ ((pyStrip name == "") = true) := by
    rw [h1]
    simp [h2]
  unfold add_menu_submit
  rw [if_neg hcond]
  rw [stored_menu_list_eq] at h3
  rw [stored_menu_list_eq, load_sheet_config]
  simp only [List.map_append, List.map_map, List.map_cons, List.map_nil,
    List.count_append]
  have hmap : (stored.map ((fun r => pyStrip r.menuName) ∘ stripConfigRow))
      = stored.map (fun r => pyStrip r.menuName) := by
    apply List.map_congr_left
    intro r _
    simp [Function.comp, stripConfigRow, pyStrip_pyStrip]
  rw [hmap]
  have h0 : (stored.map (fun r => pyStrip r.menuName)).count name = 0 :=
    List.count_eq_zero.mpr h3
  rw [h0]
  simp [stripConfigRow, h1]

/-- C6 witness: adding a fresh task name lists it exactly once. -/
theorem add_task_then_list_once_witness :
    pyStrip "업무B" = "업무B" ∧ ("업무B" : String) ≠ "" ∧
    "업무B" ∉ stored_menu_list
      [{ menuName := "업무A", sheetInfo := "", triggerInfo := "",
         taskDesc := "", mailFlag := "" }] ∧
    (stored_menu_list (add_menu_submit
        [{ menuName := "업무A", sheetInfo := "", triggerInfo := "",
           taskDesc := "", mailFlag := "" }] "업무B" "설명")).count "업무B" = 1 :=
  ⟨by decide, by decide, by decide,
   add_task_then_list_once _ "업무B" "설명" (by decide) (by decide) (by decide)⟩

/-- C3: an uncompleted 할일 note whose reminder string parses under
    "%Y-%m-%d %H:%M" (to `t` seconds) is present in the pending-alerts
    list when the reminder is 30 minutes after the current time, and
    absent when it is 3 hours before the current time. -/
theorem pending_alert_window (nowSec : Int) (stored : List NoteRow)
    (r : NoteRow) (t : Nat)
    (hmem : r ∈ (load_sheet_notes (.ok stored)).2)
    (hty : r.noteType = "할일")
    (hdone : isDoneStr r.done = false)
    (hparse : parseDateTimeSec (pyStrip r.alarmTime).data = some t) :
    ((t : Int) = nowSec + 1800 → r ∈ check_pending_tasks nowSec stored) ∧
    ((t : Int) = nowSec - 10800 → r ∉ check_pending_tasks nowSec stored) := by
  have hne : pyStrip r.alarmTime ≠ "" := by
    intro he
    have hz : parseDateTimeSec ("" : String).data = none := rfl
    rw [he, hz] at hparse
    exact Option.noConfusion hparse
  have hnn : pyStrip r.alarmTime ≠ "nan" := by
    intro he
    have hz : parseDateTimeSec ("nan" : String).data = none := by decide
    rw [he, hz] at hparse
    exact Option.noConfusion hparse
  have hmemT : r ∈ ((load_sheet_notes (.ok stored)).2.filter
      (fun x => x.noteType == "할일")) :=
    List.mem_filter.mpr ⟨hmem, by simp [hty]⟩
  constructor
  · intro ht
    unfold check_pending_tasks
    apply List.mem_filter.mpr
    refine ⟨hmemT, ?_⟩
    simp only [hdone, Bool.not_false, Bool.true_and, hparse]
    simp only [Bool.and_eq_true, bne_iff_ne, ne_eq, decide_eq_true_eq]
    exact ⟨⟨hne, hnn⟩, by omega, by omega⟩
  · intro ht hmem2
    unfold check_pending_tasks at hmem2
    have hpred := (List.mem_filter.mp hmem2).2
    simp only [hparse] at hpred
    simp only [Bool.and_eq_true, bne_iff_ne, ne_eq, decide_eq_true_eq] at hpred
    omega

/-- C3 witness: the alarm 2026-01-05 14:00 (63903218400 s) is listed when
    now is 30 minutes earlier and not listed when now is 3 hours later. -/
theorem pending_alert_window_witness :
    ({ date := "2026-01-05", time := "09:00:00", menu := "업무A",
       noteType := "할일", content := "보고서 제출", image := "",
       alarmTime := "2026-01-05 14:00", done := "" } : NoteRow)
      ∈ check_pending_tasks 63903216600
        [{ date := "2026-01-05", time := "09:00:00", menu := "업무A",
           noteType := "할일", content := "보고서 제출", image := "",
           alarmTime := "2026-01-05 14:00", done := "" }] ∧
    ({ date := "2026-01-05", time := "09:00:00", menu := "업무A",
       noteType := "할일", content := "보고서 제출", image := "",
       alarmTime := "2026-01-05 14:00", done := "" } : NoteRow)
      ∉ check_pending_tasks 63903229200
        [{ date := "2026-01-05", time := "09:00:00", menu := "업무A",
           noteType := "할일", content := "보고서 제출", image := "",
           alarmTime := "2026-01-05 14:00", done := "" }] :=
  ⟨(pending_alert_window 63903216600
      [{ date := "2026-01-05", time := "09:00:00", menu := "업무A",
         noteType := "할일", content := "보고서 제출", image := "",
         alarmTime := "2026-01-05 14:00", done := "" }]
      { date := "2026-01-05", time := "09:00:00", menu := "업무A",
        noteType := "할일", content := "보고서 제출", image := "",
        alarmTime := "2026-01-05 14:00", done := "" }
      63903218400 (by decide) (by decide) (by decide) (by decide)).1
    (by decide),
   (pending_alert_window 63903229200
      [{ date := "2026-01-05", time := "09:00:00", menu := "업무A",
         noteType := "할일", content := "보고서 제출", image := "",
         alarmTime := "2026-01-05 14:00", done := "" }]
      { date := "2026-01-05", time := "09:00:00", menu := "업무A",
        noteType := "할일", content := "보고서 제출", image := "",
        alarmTime := "2026-01-05 14:00", done := "" }
      63903218400 (by decide) (by decide) (by decide) (by decide)).2
    (by decide)⟩

/-- C1 counterexample: for the response "유형: 할일" no line yields a
    valid task number, and the task does fall back to the first configured
    name, but the category is the parsed 할일, not the default 업데이트. -/
theorem classifier_fallback_counterexample :
    (∀ raw ∈ splitOnChar '\n' (stripChars ("유형: 할일" : String).data),
        lineMenuResult ["업무A"] raw = none) ∧
    ai_classify_note (.ok "유형: 할일") ["업무A"]
      = (some "업무A", some "할일", none) ∧
    (some "할일" : Option String) ≠ some "업데이트" :=
  ⟨by decide, by decide, by decide⟩

/-- C1 amended: whenever no response line yields a valid task number, the
    task falls back to the first configured name — independently of any
    category line; the category falls back to the default update category
    (업데이트 in app.py, 📝 업데이트 in the gradio version) exactly in the
    further case that no line yields a category either. -/
theorem classifier_fallback (r : String) (ml : List String) (hml : ml ≠ [])
    (hmenu : ∀ raw ∈ splitOnChar '\n' (stripChars r.data),
        lineMenuResult ml raw = none) :
    (ai_classify_note (.ok r) ml).1 = ml.head? ∧
    (gr_ai_classify_note (.ok r) ml).1 = ml.head? ∧
    ((∀ raw ∈ splitOnChar '\n' (stripChars r.data),
        lineTypeResult typeOfApp raw = none) →
      (ai_classify_note (.ok r) ml).2.1 = some "업데이트") ∧
    ((∀ raw ∈ splitOnChar '\n' (stripChars r.data),
        lineTypeResult typeOfGr raw = none) →
      (gr_ai_classify_note (.ok r) ml).2.1 = "📝 업데이트") := by
  have hE : ml.isEmpty = false := by
    cases ml with
    | nil => exact absurd rfl hml
    | cons a t => rfl
  have hstA1 : ((splitOnChar '\n' (stripChars r.data)).foldl
      (classifyStep typeOfApp ml) (none, none, none)).1 = none :=
    foldl_classifyStep_menu typeOfApp ml _ _ hmenu
  have hstG1 : ((splitOnChar '\n' (stripChars r.data)).foldl
      (classifyStep typeOfGr ml) (none, none, none)).1 = none :=
    foldl_classifyStep_menu typeOfGr ml _ _ hmenu
  have hdata : (pyStrip r).data = stripChars r.data := rfl
  refine ⟨?_, ?_, ?_, ?_⟩
  · simp only [ai_classify_note, hstA1, hE, Bool.not_false, if_true]
  · simp only [gr_ai_classify_note, hE, Bool.false_eq_true, if_false,
      hdata, hstG1]
  · intro htyA
    have hstA2 : ((splitOnChar '\n' (stripChars r.data)).foldl
        (classifyStep typeOfApp ml) (none, none, none)).2.1 = none :=
      foldl_classifyStep_type typeOfApp ml _ _ htyA
    simp only [ai_classify_note, hstA2]
  · intro htyG
    have hstG2 : ((splitOnChar '\n' (stripChars r.data)).foldl
        (classifyStep typeOfGr ml) (none, none, none)).2.1 = none :=
      foldl_classifyStep_type typeOfGr ml _ _ htyG
    simp only [gr_ai_classify_note, hE, Bool.false_eq_true, if_false,
      hdata, hstG2]

/-- C1 witness: a response whose only structured line is a category line —
    the task still falls back to the first configured name while the
    category comes out as the parsed 아이디어; together with a plain memo
    where both defaults fire. -/
theorem classifier_fallback_witness :
    (ai_classify_note (.ok "유형: 아이디어") ["업무A"]).1 = some "업무A" ∧
    (ai_classify_note (.ok "유형: 아이디어") ["업무A"]).2.1 = some "아이디어" ∧
    (ai_classify_note (.ok "메모입니다") ["업무A"]).1 = some "업무A" ∧
    (ai_classify_note (.ok "메모입니다") ["업무A"]).2.1 = some "업데이트" ∧
    (gr_ai_classify_note (.ok "메모입니다") ["업무A"]).1 = some "업무A" ∧
    (gr_ai_classify_note (.ok "메모입니다") ["업무A"]).2.1 = "📝 업데이트" := by
  have h1 := classifier_fallback "유형: 아이디어" ["업무A"] (by decide) (by decide)
  have h2 := classifier_fallback "메모입니다" ["업무A"] (by decide) (by decide)
  exact ⟨h1.1, by decide, h2.1, h2.2.2.1 (by decide), h2.2.1,
    h2.2.2.2 (by decide)⟩
